import Mathlib

/-!
Verification development for the ILPS28QSW pressure-sensor register driver
(source file src/ilps28qsw_reg.c).

The driver talks to the device through an injected transport capability
(read/write of N consecutive register bytes at an address).  We embed the
transport as an explicit device state: a register map (address to byte),
a script of transport statuses (one entry consumed per transport call,
an empty script meaning every call returns 0), and a trace recording every
transport call in order.  Register bytes are Nat; the C bit-field structs
become shift/mask field accesses (getBits / setBits) on the register byte.
Status arithmetic is int32 with wraparound, embedded as Int with explicit
reduction into the interval from -2^31 to 2^31 - 1.

The register addresses, bit offsets and enumeration constants live in the
device header ilps28qsw_reg.h, which is not part of src/.  Those constants
are modelled from the spec (sections 3, 4 and 6): the spec fixes which
fields share a register, which registers are consecutive, and the named
enumeration domains; the concrete offsets follow the conventions of this
driver family and are marked below.  Floating-point unit conversions are
embedded over the rationals; the divisions the claims depend on are by
powers of two, which binary floating point performs exactly.

C note: on an error path some getters of the source leave the output
struct untouched; the embedding threads the previous value through.  A
transport call whose status is non-zero still returns the register bytes
in this model; every theorem below that inspects register contents uses
an all-success script, so this modelling choice never enters a proof.
-/

namespace Ilps28qsw

/-- Extract `w` bits starting at bit `off` of byte `b`. -/
def getBits (b off w : Nat) : Nat := b / 2 ^ off % 2 ^ w

/-- Store `v` (truncated to `w` bits, as a C bit-field assignment does)
into the bits of `b` starting at bit `off`; all other bits keep their value. -/
def setBits (b off w v : Nat) : Nat :=
  b / 2 ^ (off + w) * 2 ^ (off + w) + v % 2 ^ w * 2 ^ off + b % 2 ^ off

/-- Reduce an integer into the int32 interval (two-complement wraparound). -/
def wrap32 (z : Int) : Int := (z + 2 ^ 31) % 2 ^ 32 - 2 ^ 31

/-- int32 addition with wraparound: the `ret += status` accumulation pattern. -/
def i32add (a b : Int) : Int := wrap32 (a + b)

/-- Reduce an integer into the int16 interval (two-complement wraparound). -/
def wrap16 (z : Int) : Int := (z + 2 ^ 15) % 2 ^ 16 - 2 ^ 15

/-- Sign extension of a 24-bit code. -/
def sext24 (v : Nat) : Int := if v < 2 ^ 23 then (v : Int) else (v : Int) - 2 ^ 24

/-- Bitwise complement of a C uint8 value (the `~x` of the source, promoted
to int and narrowed back to 8 bits). -/
def bnot8 (x : Nat) : Nat := 255 - x % 256

/-! ### Register addresses.
Modelled from the spec: the register address map lives in ilps28qsw_reg.h
(not under src/); the spec (section 6) lists the consumed address space and
requires the three control registers, the interrupt-configuration plus the
two threshold registers, and the FIFO-control plus watermark registers to be
consecutive, since the driver bursts across them.  Concrete values follow
the driver family convention. -/

def ILPS28QSW_INTERRUPT_CFG : Nat := 0x0B
def ILPS28QSW_THS_P_L : Nat := 0x0C
def ILPS28QSW_THS_P_H : Nat := 0x0D
def ILPS28QSW_CTRL_REG1 : Nat := 0x10
def ILPS28QSW_CTRL_REG2 : Nat := 0x11
def ILPS28QSW_CTRL_REG3 : Nat := 0x12
def ILPS28QSW_FIFO_CTRL : Nat := 0x14
def ILPS28QSW_FIFO_WTM : Nat := 0x15
def ILPS28QSW_INT_SOURCE : Nat := 0x24
def ILPS28QSW_FIFO_STATUS1 : Nat := 0x25
def ILPS28QSW_STATUS : Nat := 0x27
def ILPS28QSW_PRESS_OUT_XL : Nat := 0x28
def ILPS28QSW_TEMP_OUT_L : Nat := 0x2B
def ILPS28QSW_FIFO_DATA_OUT_PRESS_XL : Nat := 0x78

/-! ### Enumeration constants.
Modelled from the spec: the enumeration values live in ilps28qsw_reg.h (not
under src/).  The spec (sections 3 and 4) names the domains; the numeric
values are fixed so that every named constant is reachable by the get-side
decode switches of the source (for instance the low-pass selector decode
switches on `lfpf_cfg * 4 + en_lpfp`, so the DIV 9 selector carries value 5,
and the dynamic FIFO modes carry the trig_modes bit, value 4). -/

def PROPERTY_DISABLE : Nat := 0
def PROPERTY_ENABLE : Nat := 1

def ILPS28QSW_ONE_SHOT : Nat := 0
def ILPS28QSW_1Hz : Nat := 1
def ILPS28QSW_4Hz : Nat := 2
def ILPS28QSW_10Hz : Nat := 3
def ILPS28QSW_25Hz : Nat := 4
def ILPS28QSW_50Hz : Nat := 5
def ILPS28QSW_75Hz : Nat := 6
def ILPS28QSW_100Hz : Nat := 7
def ILPS28QSW_200Hz : Nat := 8

def ILPS28QSW_4_AVG : Nat := 0
def ILPS28QSW_8_AVG : Nat := 1
def ILPS28QSW_16_AVG : Nat := 2
def ILPS28QSW_32_AVG : Nat := 3
def ILPS28QSW_64_AVG : Nat := 4
def ILPS28QSW_128_AVG : Nat := 5
def ILPS28QSW_256_AVG : Nat := 6
def ILPS28QSW_512_AVG : Nat := 7

def ILPS28QSW_LPF_DISABLE : Nat := 0
def ILPS28QSW_LPF_ODR_DIV_4 : Nat := 1
def ILPS28QSW_LPF_ODR_DIV_9 : Nat := 5

def ILPS28QSW_1260hPa : Nat := 0
def ILPS28QSW_4060hPa : Nat := 1

def ILPS28QSW_BYPASS : Nat := 0
def ILPS28QSW_FIFO : Nat := 1
def ILPS28QSW_STREAM : Nat := 2
def ILPS28QSW_BYPASS_TO_FIFO : Nat := 5
def ILPS28QSW_BYPASS_TO_STREAM : Nat := 6
def ILPS28QSW_STREAM_TO_FIFO : Nat := 7

def ILPS28QSW_OUT_AND_INTERRUPT : Nat := 0
def ILPS28QSW_ONLY_INTERRUPT : Nat := 1
def ILPS28QSW_RST_REFS : Nat := 2

/-! ### Register bit layouts.
Modelled from the spec: the bit-field layouts live in ilps28qsw_reg.h (not
under src/).  The spec fixes which fields share each register; the offsets
and widths below follow the driver family convention.

CTRL_REG1: avg bits 0-2, odr bits 3-6.
CTRL_REG2: oneshot bit 0, swreset bit 2, bdu bit 3, en_lpfp bit 4,
  lfpf_cfg bit 5, fs_mode bit 6, boot bit 7.
CTRL_REG3: if_add_inc bit 0, ah_qvar_p_auto_en bit 5, ah_qvar_en bit 7.
FIFO_CTRL: f_mode bits 0-1, trig_modes bit 2, stop_on_wtm bit 3,
  ah_qvar_p_fifo_en bit 4.
FIFO_WTM: wtm bits 0-6.
INTERRUPT_CFG: phe bit 0, ple bit 1, lir bit 2, reset_az bit 4,
  autozero bit 5, reset_arp bit 6, autorefp bit 7.
THS_P_L / THS_P_H: ths, 8 bits each (the spec stores the 16-bit threshold
  as raw/256 and raw mod 256 across two 8-bit registers).
STATUS: p_da bit 0, t_da bit 1, p_or bit 4, t_or bit 5.
INT_SOURCE: ph bit 0, pl bit 1, ia bit 2, boot_on bit 7.
FIFO_STATUS1: fss, 8 bits. -/

/-! ### Transport / device model. -/

/-- One transport call, as a test double of the bus would record it. -/
inductive BusOp where
  | rd (addr len : Nat)
  | wr (addr : Nat) (bytes : List Nat)
deriving DecidableEq

/-- Device + transport state: register contents, scripted statuses (one
consumed per transport call, empty meaning success), recorded call trace. -/
structure DevState where
  regs : Nat → Nat
  script : List Int
  trace : List BusOp

/-- Pop the next scripted transport status (0 when the script is empty);
the transport returns an int32, hence the wraparound reduction. -/
def popStatus : List Int → Int × List Int
  | [] => (0, [])
  | s :: rest => (wrap32 s, rest)

/-- Read `n` consecutive register bytes starting at `addr`. -/
def readBytes (regs : Nat → Nat) (addr : Nat) : Nat → List Nat
  | 0 => []
  | n + 1 => regs addr :: readBytes regs (addr + 1) n

/-- Write the byte list at consecutive addresses starting at `addr`. -/
def writeBytes (regs : Nat → Nat) (addr : Nat) (bytes : List Nat) : Nat → Nat :=
  fun a => if addr ≤ a ∧ a - addr < bytes.length then bytes.getD (a - addr) 0 else regs a

/-- ilps28qsw_read_reg against the device model: returns the bytes, the
scripted status, and the successor state with the call traced. -/
def busRead (s : DevState) (addr len : Nat) : List Nat × Int × DevState :=
  let p := popStatus s.script
  (readBytes s.regs addr len, p.1, ⟨s.regs, p.2, s.trace ++ [BusOp.rd addr len]⟩)

/-- ilps28qsw_write_reg against the device model: stores the bytes, returns
the scripted status, and traces the call. -/
def busWrite (s : DevState) (addr : Nat) (bytes : List Nat) : Int × DevState :=
  let p := popStatus s.script
  (p.1, ⟨writeBytes s.regs addr bytes, p.2, s.trace ++ [BusOp.wr addr bytes]⟩)

/-! ### Typed configuration and data structures (from ilps28qsw_reg.h,
shapes as the spec data model, section 3). -/

structure ilps28qsw_md_t where
  odr : Nat
  avg : Nat
  lpf : Nat
  fs : Nat
  interleaved_mode : Nat
deriving DecidableEq

structure ilps28qsw_fifo_md_t where
  operation : Nat
  watermark : Nat
deriving DecidableEq

structure ilps28qsw_int_th_md_t where
  over_th : Nat
  under_th : Nat
  threshold : Nat
deriving DecidableEq

structure ilps28qsw_ref_md_t where
  get_ref : Nat
  apply_ref : Nat
deriving DecidableEq

structure ilps28qsw_stat_t where
  sw_reset : Nat
  boot : Nat
  drdy_pres : Nat
  drdy_temp : Nat
  ovr_pres : Nat
  ovr_temp : Nat
  end_meas : Nat
  ref_done : Nat
deriving DecidableEq

structure ilps28qsw_data_t where
  pressure_raw : Int
  pressure_hpa : ℚ
  heat_raw : Int
  heat_deg_c : ℚ
  ah_qvar_lsb : Int
deriving DecidableEq

structure ilps28qsw_fifo_data_t where
  raw : Int
  hpa : ℚ
  lsb : Int
deriving DecidableEq

/-! ### Unit conversions (source lines 120-138), embedded over the
rationals; the two pressure divisors are powers of two, performed exactly
by binary floating point. -/

def ilps28qsw_from_fs1260_to_hPa (lsb : Int) : ℚ := (lsb : ℚ) / 1048576

def ilps28qsw_from_fs4060_to_hPa (lsb : Int) : ℚ := (lsb : ℚ) / 524288

def ilps28qsw_from_lsb_to_celsius (lsb : Int) : ℚ := (lsb : ℚ) / 100

def ilps28qsw_from_lsb_to_mv (lsb : Int) : ℚ := (lsb : ℚ) / 426000

/-! ### Mode manager (source lines 435-504): ilps28qsw_mode_set.
Line-by-line embedding: burst read of CTRL_REG1..3; if the device is
running (odr non-zero) write a power-down first; if QVAR is enabled write
it disabled first; write the interleave flag into CTRL_REG3; read-modify-
write the FIFO interleave flag; the saved QVAR-enable and rate are folded
back into the local copies (no separate restore writes in the source) and
the local rate is then overwritten by the requested one; final burst write
of the three control registers.  `ret` accumulates statuses by int32 sum. -/

def ilps28qsw_mode_set (val : ilps28qsw_md_t) (s0 : DevState) : Int × DevState :=
  let r0 := busRead s0 ILPS28QSW_CTRL_REG1 3
  let ret0 := r0.2.1
  if ret0 = 0 then
    let c1 := r0.1.getD 0 0
    let c2 := r0.1.getD 1 0
    let c3 := r0.1.getD 2 0
    let p :=
      if getBits c1 3 4 ≠ 0 then
        let c1x := setBits c1 3 4 0
        let w := busWrite r0.2.2 ILPS28QSW_CTRL_REG1 [c1x]
        (c1x, i32add ret0 w.1, w.2, getBits c1 3 4)
      else (c1, ret0, r0.2.2, 0)
    let c1a := p.1
    let odr_save := p.2.2.2
    let q :=
      if getBits c3 7 1 ≠ 0 then
        let c3x := setBits c3 7 1 0
        let w := busWrite p.2.2.1 ILPS28QSW_CTRL_REG3 [c3x]
        (c3x, i32add p.2.1 w.1, w.2, getBits c3 7 1)
      else (c3, p.2.1, p.2.2.1, 0)
    let ah_qvar_en_save := q.2.2.2
    let c3a := setBits q.1 5 1 val.interleaved_mode
    let w1 := busWrite q.2.2.1 ILPS28QSW_CTRL_REG3 [c3a]
    let ret1 := i32add q.2.1 w1.1
    let rf := busRead w1.2 ILPS28QSW_FIFO_CTRL 1
    let ret2 := i32add ret1 rf.2.1
    let fifo_ctrl := setBits (rf.1.getD 0 0) 4 1 val.interleaved_mode
    let w2 := busWrite rf.2.2 ILPS28QSW_FIFO_CTRL [fifo_ctrl]
    let ret3 := i32add ret2 w2.1
    let c3b := if ah_qvar_en_save ≠ 0 then setBits c3a 7 1 ah_qvar_en_save else c3a
    let c1b := if odr_save ≠ 0 then setBits c1a 3 4 odr_save else c1a
    let c1c := setBits (setBits c1b 3 4 val.odr) 0 3 val.avg
    let c2c := setBits (setBits (setBits c2 4 1 (getBits val.lpf 0 1))
      5 1 (getBits val.lpf 1 1)) 6 1 val.fs
    let w3 := busWrite w2.2 ILPS28QSW_CTRL_REG1 [c1c, c2c, c3b]
    (i32add ret3 w3.1, w3.2)
  else (ret0, r0.2.2)

/-! ### ilps28qsw_mode_get (source lines 514-627).
Each decode switch of the source becomes one total decode function; every
unlisted bit pattern falls to the default case of the source switch. -/

/-- Decode switch on fs_mode (source lines 530-541). -/
def decode_fs (n : Nat) : Nat :=
  if n = ILPS28QSW_1260hPa then ILPS28QSW_1260hPa
  else if n = ILPS28QSW_4060hPa then ILPS28QSW_4060hPa
  else ILPS28QSW_1260hPa

/-- Decode switch on odr (source lines 543-575). -/
def decode_odr (n : Nat) : Nat :=
  if n = ILPS28QSW_ONE_SHOT then ILPS28QSW_ONE_SHOT
  else if n = ILPS28QSW_1Hz then ILPS28QSW_1Hz
  else if n = ILPS28QSW_4Hz then ILPS28QSW_4Hz
  else if n = ILPS28QSW_10Hz then ILPS28QSW_10Hz
  else if n = ILPS28QSW_25Hz then ILPS28QSW_25Hz
  else if n = ILPS28QSW_50Hz then ILPS28QSW_50Hz
  else if n = ILPS28QSW_75Hz then ILPS28QSW_75Hz
  else if n = ILPS28QSW_100Hz then ILPS28QSW_100Hz
  else if n = ILPS28QSW_200Hz then ILPS28QSW_200Hz
  else ILPS28QSW_ONE_SHOT

/-- Decode switch on avg (source lines 577-606). -/
def decode_avg (n : Nat) : Nat :=
  if n = ILPS28QSW_4_AVG then ILPS28QSW_4_AVG
  else if n = ILPS28QSW_8_AVG then ILPS28QSW_8_AVG
  else if n = ILPS28QSW_16_AVG then ILPS28QSW_16_AVG
  else if n = ILPS28QSW_32_AVG then ILPS28QSW_32_AVG
  else if n = ILPS28QSW_64_AVG then ILPS28QSW_64_AVG
  else if n = ILPS28QSW_128_AVG then ILPS28QSW_128_AVG
  else if n = ILPS28QSW_256_AVG then ILPS28QSW_256_AVG
  else if n = ILPS28QSW_512_AVG then ILPS28QSW_512_AVG
  else ILPS28QSW_4_AVG

/-- Decode switch on `lfpf_cfg << 2 | en_lpfp` (source lines 608-622). -/
def decode_lpf (n : Nat) : Nat :=
  if n = ILPS28QSW_LPF_DISABLE then ILPS28QSW_LPF_DISABLE
  else if n = ILPS28QSW_LPF_ODR_DIV_4 then ILPS28QSW_LPF_ODR_DIV_4
  else if n = ILPS28QSW_LPF_ODR_DIV_9 then ILPS28QSW_LPF_ODR_DIV_9
  else ILPS28QSW_LPF_DISABLE

/-- ilps28qsw_mode_get: burst read of the three control registers and
total field decode; on a transport failure the source leaves the output
struct untouched, embedded by returning the previous value `val`. -/
def ilps28qsw_mode_get (val : ilps28qsw_md_t) (s0 : DevState) :
    Int × ilps28qsw_md_t × DevState :=
  let r0 := busRead s0 ILPS28QSW_CTRL_REG1 3
  let ret0 := r0.2.1
  if ret0 = 0 then
    let c1 := r0.1.getD 0 0
    let c2 := r0.1.getD 1 0
    let c3 := r0.1.getD 2 0
    (ret0,
     { fs := decode_fs (getBits c2 6 1)
       odr := decode_odr (getBits c1 3 4)
       avg := decode_avg (getBits c1 0 3)
       lpf := decode_lpf (getBits c2 5 1 * 4 + getBits c2 4 1)
       interleaved_mode := getBits c3 5 1 },
     r0.2.2)
  else (ret0, val, r0.2.2)

/-! ### Status decomposition (source lines 308-341): ilps28qsw_status_get.
Four single-byte reads, each attempted only while the accumulated status
is still 0 (on a failure the later C locals stay uninitialized; the model
reads 0 for them, and every theorem below uses the all-success path).
The end_meas and ref_done outputs are the bitwise complements of the
oneshot and autozero bits. -/

def ilps28qsw_status_get (s0 : DevState) : Int × ilps28qsw_stat_t × DevState :=
  let r0 := busRead s0 ILPS28QSW_CTRL_REG2 1
  let ctrl_reg2 := r0.1.getD 0 0
  let a1 :=
    if r0.2.1 = 0 then
      let r := busRead r0.2.2 ILPS28QSW_INT_SOURCE 1
      (r.2.1, r.1.getD 0 0, r.2.2)
    else (r0.2.1, 0, r0.2.2)
  let int_source := a1.2.1
  let a2 :=
    if a1.1 = 0 then
      let r := busRead a1.2.2 ILPS28QSW_STATUS 1
      (r.2.1, r.1.getD 0 0, r.2.2)
    else (a1.1, 0, a1.2.2)
  let status := a2.2.1
  let a3 :=
    if a2.1 = 0 then
      let r := busRead a2.2.2 ILPS28QSW_INTERRUPT_CFG 1
      (r.2.1, r.1.getD 0 0, r.2.2)
    else (a2.1, 0, a2.2.2)
  let interrupt_cfg := a3.2.1
  (a3.1,
   { sw_reset := getBits ctrl_reg2 2 1
     boot := getBits int_source 7 1
     drdy_pres := getBits status 0 1
     drdy_temp := getBits status 1 1
     ovr_pres := getBits status 4 1
     ovr_temp := getBits status 5 1
     end_meas := bnot8 (getBits ctrl_reg2 0 1)
     ref_done := bnot8 (getBits interrupt_cfg 5 1) },
   a3.2.2)

/-! ### Data acquisition (source lines 706-769): ilps28qsw_data_get. -/

/-- The little-endian 24-bit reconstruction left-shifted by 8 into an
int32 container (source lines 715-718), with int32 wraparound at each
assignment. -/
def press_raw_of (b0 b1 b2 : Nat) : Int :=
  wrap32 (wrap32 (wrap32 ((b2 : Int) * 256 + (b1 : Int)) * 256 + (b0 : Int)) * 256)

/-- Full-scale dependent pressure conversion switch (source lines 725-736
and 748-759): unknown full-scale selectors degrade to 0. -/
def hpa_of_fs (fs : Nat) (raw : Int) : ℚ :=
  if fs = ILPS28QSW_1260hPa then ilps28qsw_from_fs1260_to_hPa raw
  else if fs = ILPS28QSW_4060hPa then ilps28qsw_from_fs4060_to_hPa raw
  else 0

def ilps28qsw_data_get (md : ilps28qsw_md_t) (s0 : DevState) :
    Int × ilps28qsw_data_t × DevState :=
  let r0 := busRead s0 ILPS28QSW_PRESS_OUT_XL 5
  let b0 := r0.1.getD 0 0
  let b1 := r0.1.getD 1 0
  let b2 := r0.1.getD 2 0
  let b3 := r0.1.getD 3 0
  let b4 := r0.1.getD 4 0
  let praw := press_raw_of b0 b1 b2
  let pq :=
    if md.interleaved_mode = 1 then
      if getBits b0 0 1 = 0 then
        (hpa_of_fs md.fs praw, (0 : Int))
      else
        ((0 : ℚ), Int.tdiv praw 256)
    else
      (hpa_of_fs md.fs praw, (0 : Int))
  let traw := wrap16 ((b4 : Int) * 256 + (b3 : Int))
  (r0.2.1,
   { pressure_raw := praw
     pressure_hpa := pq.1
     heat_raw := traw
     heat_deg_c := ilps28qsw_from_lsb_to_celsius traw
     ah_qvar_lsb := pq.2 },
   r0.2.2)

/-- ilps28qsw_pressure_raw_get (source lines 779-791): same little-endian
reconstruction into a uint32 container, arithmetic modulo 2^32. -/
def ilps28qsw_pressure_raw_get (s0 : DevState) : Int × Nat × DevState :=
  let r0 := busRead s0 ILPS28QSW_PRESS_OUT_XL 3
  let b0 := r0.1.getD 0 0
  let b1 := r0.1.getD 1 0
  let b2 := r0.1.getD 2 0
  (r0.2.1, ((b2 % 2 ^ 32 * 256 + b1) % 2 ^ 32 * 256 + b0) % 2 ^ 32 * 256 % 2 ^ 32, r0.2.2)

/-! ### FIFO functions (source lines 863-1041). -/

/-- ilps28qsw_fifo_mode_set (source lines 863-896): read-modify-write of
FIFO_CTRL and FIFO_WTM; the 3-bit operation selector is split into f_mode
(2 bits) and trig_modes (1 bit); a non-zero watermark forces stop_on_wtm
enabled, a zero watermark forces it disabled. -/
def ilps28qsw_fifo_mode_set (val : ilps28qsw_fifo_md_t) (s0 : DevState) :
    Int × DevState :=
  let r0 := busRead s0 ILPS28QSW_FIFO_CTRL 2
  let ret0 := r0.2.1
  if ret0 = 0 then
    let fifo_ctrl := r0.1.getD 0 0
    let fifo_wtm := r0.1.getD 1 0
    let fc1 := setBits fifo_ctrl 0 2 (getBits val.operation 0 2)
    let fc2 := setBits fc1 2 1 (getBits val.operation 2 1)
    let fc3 :=
      if val.watermark ≠ 0 then setBits fc2 3 1 PROPERTY_ENABLE
      else setBits fc2 3 1 PROPERTY_DISABLE
    let wt1 := setBits fifo_wtm 0 7 val.watermark
    let w := busWrite r0.2.2 ILPS28QSW_FIFO_CTRL [fc3, wt1]
    (w.1, w.2)
  else (ret0, r0.2.2)

/-- Decode switch on `trig_modes << 2 | f_mode` (source lines 918-941). -/
def decode_operation (n : Nat) : Nat :=
  if n = ILPS28QSW_BYPASS then ILPS28QSW_BYPASS
  else if n = ILPS28QSW_FIFO then ILPS28QSW_FIFO
  else if n = ILPS28QSW_STREAM then ILPS28QSW_STREAM
  else if n = ILPS28QSW_STREAM_TO_FIFO then ILPS28QSW_STREAM_TO_FIFO
  else if n = ILPS28QSW_BYPASS_TO_STREAM then ILPS28QSW_BYPASS_TO_STREAM
  else if n = ILPS28QSW_BYPASS_TO_FIFO then ILPS28QSW_BYPASS_TO_FIFO
  else ILPS28QSW_BYPASS

/-- ilps28qsw_fifo_mode_get (source lines 906-946): note the source
decodes unconditionally, without checking the read status. -/
def ilps28qsw_fifo_mode_get (s0 : DevState) :
    Int × ilps28qsw_fifo_md_t × DevState :=
  let r0 := busRead s0 ILPS28QSW_FIFO_CTRL 2
  let fifo_ctrl := r0.1.getD 0 0
  let fifo_wtm := r0.1.getD 1 0
  (r0.2.1,
   { operation := decode_operation (getBits fifo_ctrl 2 1 * 4 + getBits fifo_ctrl 0 2)
     watermark := getBits fifo_wtm 0 7 },
   r0.2.2)

/-- One FIFO sample decode (source lines 991-1037): reconstruction plus
the interleave tag-bit demultiplexing, without the temperature field. -/
def fifo_sample_decode (md : ilps28qsw_md_t) (b0 b1 b2 : Nat) : ilps28qsw_fifo_data_t :=
  let raw := press_raw_of b0 b1 b2
  if md.interleaved_mode = 1 then
    if getBits b0 0 1 = 0 then
      { raw := raw, hpa := hpa_of_fs md.fs raw, lsb := 0 }
    else
      { raw := raw, hpa := 0, lsb := Int.tdiv raw 256 }
  else
    { raw := raw, hpa := hpa_of_fs md.fs raw, lsb := 0 }

/-- The `for (i = 0; i < samp; i++)` loop of ilps28qsw_fifo_data_get
(source lines 988-1038): each iteration performs one 3-byte read from the
FIFO output register and overwrites `ret` with that read status. -/
def fifo_data_go (md : ilps28qsw_md_t) : Nat → DevState → List ilps28qsw_fifo_data_t →
    Int → Int × List ilps28qsw_fifo_data_t × DevState
  | 0, s, acc, ret => (ret, acc.reverse, s)
  | n + 1, s, acc, ret =>
    let _ := ret
    let r := busRead s ILPS28QSW_FIFO_DATA_OUT_PRESS_XL 3
    let d := fifo_sample_decode md (r.1.getD 0 0) (r.1.getD 1 0) (r.1.getD 2 0)
    fifo_data_go md n r.2.2 (d :: acc) r.2.1

/-- ilps28qsw_fifo_data_get (source lines 981-1041): `ret` starts at 0 and
is overwritten (not accumulated) by each read in the loop. -/
def ilps28qsw_fifo_data_get (samp : Nat) (md : ilps28qsw_md_t) (s0 : DevState) :
    Int × List ilps28qsw_fifo_data_t × DevState :=
  fifo_data_go md samp s0 [] 0

/-! ### Interrupt-threshold configuration (source lines 1123-1182). -/

/-- ilps28qsw_int_on_threshold_mode_set: 3-register burst read-modify-
write; the 16-bit threshold is split as threshold/256 (high, cast to
uint8) and threshold minus high*256 (low, cast to uint8). -/
def ilps28qsw_int_on_threshold_mode_set (val : ilps28qsw_int_th_md_t)
    (s0 : DevState) : Int × DevState :=
  let r0 := busRead s0 ILPS28QSW_INTERRUPT_CFG 3
  let ret0 := r0.2.1
  if ret0 = 0 then
    let interrupt_cfg := r0.1.getD 0 0
    let ths_p_l := r0.1.getD 1 0
    let ths_p_h := r0.1.getD 2 0
    let ic1 := setBits (setBits interrupt_cfg 0 1 val.over_th) 1 1 val.under_th
    let hv := val.threshold / 256 % 256
    let h1 := setBits ths_p_h 0 8 hv
    let l1 := setBits ths_p_l 0 8 ((val.threshold - hv * 256) % 256)
    let w := busWrite r0.2.2 ILPS28QSW_INTERRUPT_CFG [ic1, l1, h1]
    (w.1, w.2)
  else (ret0, r0.2.2)

/-- ilps28qsw_int_on_threshold_mode_get: the source decodes without
checking the read status; the threshold is rebuilt as high*256 + low in a
uint16 container. -/
def ilps28qsw_int_on_threshold_mode_get (s0 : DevState) :
    Int × ilps28qsw_int_th_md_t × DevState :=
  let r0 := busRead s0 ILPS28QSW_INTERRUPT_CFG 3
  let interrupt_cfg := r0.1.getD 0 0
  let ths_p_l := r0.1.getD 1 0
  let ths_p_h := r0.1.getD 2 0
  (r0.2.1,
   { over_th := getBits interrupt_cfg 0 1
     under_th := getBits interrupt_cfg 1 1
     threshold := (getBits ths_p_h 0 8 * 256 + getBits ths_p_l 0 8) % 2 ^ 16 },
   r0.2.2)

/-! ### Reference mode (source lines 1205-1259). -/

/-- ilps28qsw_reference_mode_set: single-register read-modify-write;
autorefp takes bit 0 of apply_ref, and both reset flags take bit 1. -/
def ilps28qsw_reference_mode_set (val : ilps28qsw_ref_md_t) (s0 : DevState) :
    Int × DevState :=
  let r0 := busRead s0 ILPS28QSW_INTERRUPT_CFG 1
  let ret0 := r0.2.1
  if ret0 = 0 then
    let interrupt_cfg := r0.1.getD 0 0
    let i1 := setBits interrupt_cfg 5 1 val.get_ref
    let i2 := setBits i1 7 1 (getBits val.apply_ref 0 1)
    let i3 := setBits i2 4 1 (getBits val.apply_ref 1 1)
    let i4 := setBits i3 6 1 (getBits val.apply_ref 1 1)
    let w := busWrite r0.2.2 ILPS28QSW_INTERRUPT_CFG [i4]
    (w.1, w.2)
  else (ret0, r0.2.2)

/-- Decode switch on `reset_az << 1 | autorefp` (source lines 1243-1255):
the default case yields the reset-references state. -/
def decode_apply_ref (n : Nat) : Nat :=
  if n = ILPS28QSW_OUT_AND_INTERRUPT then ILPS28QSW_OUT_AND_INTERRUPT
  else if n = ILPS28QSW_ONLY_INTERRUPT then ILPS28QSW_ONLY_INTERRUPT
  else ILPS28QSW_RST_REFS

/-- ilps28qsw_reference_mode_get: the source decodes without checking the
read status. -/
def ilps28qsw_reference_mode_get (s0 : DevState) :
    Int × ilps28qsw_ref_md_t × DevState :=
  let r0 := busRead s0 ILPS28QSW_INTERRUPT_CFG 1
  let interrupt_cfg := r0.1.getD 0 0
  (r0.2.1,
   { apply_ref := decode_apply_ref (getBits interrupt_cfg 4 1 * 2 + getBits interrupt_cfg 7 1)
     get_ref := getBits interrupt_cfg 5 1 },
   r0.2.2)

/-! ## Shared lemmas -/

/-- The stepwise int32 reconstruction of the three output bytes equals the
sign-extended 24-bit code multiplied by 256. -/
theorem press_raw_eq (b0 b1 b2 : Nat) (h0 : b0 < 256) (h1 : b1 < 256) (h2 : b2 < 256) :
    press_raw_of b0 b1 b2 = sext24 (b2 * 65536 + b1 * 256 + b0) * 256 := by
  simp only [press_raw_of, wrap32, sext24]
  split <;> omega

/-! ## Claims -/

/-- C5: for every 3-byte little-endian tuple read from the pressure output
registers, ilps28qsw_data_get and ilps28qsw_pressure_raw_get reconstruct
the raw code as (b2*65536 + b1*256 + b0) * 256 in a 32-bit container
(modulo 2^32); the int32 result of ilps28qsw_data_get equals the
sign-extended 24-bit value times 256, and is negative exactly when bit 7
of the top byte is set. -/
theorem C5_raw_shift_reconstruction (b0 b1 b2 : Nat)
    (h0 : b0 < 256) (h1 : b1 < 256) (h2 : b2 < 256)
    (regs : Nat → Nat) (hr0 : regs ILPS28QSW_PRESS_OUT_XL = b0)
    (hr1 : regs (ILPS28QSW_PRESS_OUT_XL + 1) = b1)
    (hr2 : regs (ILPS28QSW_PRESS_OUT_XL + 1 + 1) = b2)
    (md : ilps28qsw_md_t) :
    (ilps28qsw_data_get md ⟨regs, [], []⟩).2.1.pressure_raw
        = sext24 (b2 * 65536 + b1 * 256 + b0) * 256
      ∧ ((ilps28qsw_data_get md ⟨regs, [], []⟩).2.1.pressure_raw < 0 ↔ 128 ≤ b2)
      ∧ (ilps28qsw_pressure_raw_get ⟨regs, [], []⟩).2.1
        = (b2 * 65536 + b1 * 256 + b0) * 256 % 2 ^ 32 := by
  simp only [ilps28qsw_data_get, ilps28qsw_pressure_raw_get, busRead, popStatus,
    readBytes, List.getD, press_raw_of, wrap32, sext24, hr0, hr1, hr2]
  norm_num
  refine ⟨?_, ?_, ?_⟩
  · split <;> omega
  · omega
  · omega

/-- C5 witness: a concrete negative sample, 0xAB1234 shifted. -/
theorem C5_raw_shift_reconstruction_witness :
    ((0x12 : Nat) < 256 ∧ (0x34 : Nat) < 256 ∧ (0xAB : Nat) < 256)
      ∧ ((ilps28qsw_data_get ⟨0, 0, 0, 0, 0⟩
            ⟨fun a => if a = 0x28 then 0x12 else if a = 0x29 then 0x34
              else if a = 0x2A then 0xAB else 0, [], []⟩).2.1.pressure_raw
          = sext24 (0xAB * 65536 + 0x34 * 256 + 0x12) * 256
        ∧ ((ilps28qsw_data_get ⟨0, 0, 0, 0, 0⟩
            ⟨fun a => if a = 0x28 then 0x12 else if a = 0x29 then 0x34
              else if a = 0x2A then 0xAB else 0, [], []⟩).2.1.pressure_raw < 0 ↔ 128 ≤ 0xAB)
        ∧ (ilps28qsw_pressure_raw_get
            ⟨fun a => if a = 0x28 then 0x12 else if a = 0x29 then 0x34
              else if a = 0x2A then 0xAB else 0, [], []⟩).2.1
          = (0xAB * 65536 + 0x34 * 256 + 0x12) * 256 % 2 ^ 32) :=
  ⟨by norm_num,
   C5_raw_shift_reconstruction 0x12 0x34 0xAB (by norm_num) (by norm_num) (by norm_num)
     _ (by decide) (by decide) (by decide) ⟨0, 0, 0, 0, 0⟩⟩

/-- C4: with interleaved mode active, bit 0 of the lowest raw byte
demultiplexes the sample: bit 1 means a QVAR sample (pressure output zero,
QVAR output the shifted raw divided back by 256, non-zero whenever the raw
code is non-zero); bit 0 means a pressure sample (QVAR output zero,
pressure converted by the full-scale dependent formula); a sample is never
both. -/
theorem C4_interleaved_demux (b0 b1 b2 : Nat)
    (h0 : b0 < 256) (h1 : b1 < 256) (h2 : b2 < 256)
    (regs : Nat → Nat) (hr0 : regs ILPS28QSW_PRESS_OUT_XL = b0)
    (hr1 : regs (ILPS28QSW_PRESS_OUT_XL + 1) = b1)
    (hr2 : regs (ILPS28QSW_PRESS_OUT_XL + 1 + 1) = b2)
    (md : ilps28qsw_md_t) (hint : md.interleaved_mode = 1)
    (hfs : md.fs = ILPS28QSW_1260hPa ∨ md.fs = ILPS28QSW_4060hPa) :
    (getBits b0 0 1 = 1 →
        (ilps28qsw_data_get md ⟨regs, [], []⟩).2.1.pressure_hpa = 0
        ∧ (ilps28qsw_data_get md ⟨regs, [], []⟩).2.1.ah_qvar_lsb
          = Int.tdiv (ilps28qsw_data_get md ⟨regs, [], []⟩).2.1.pressure_raw 256
        ∧ ((ilps28qsw_data_get md ⟨regs, [], []⟩).2.1.pressure_raw ≠ 0 →
            (ilps28qsw_data_get md ⟨regs, [], []⟩).2.1.ah_qvar_lsb ≠ 0))
      ∧ (getBits b0 0 1 = 0 →
        (ilps28qsw_data_get md ⟨regs, [], []⟩).2.1.ah_qvar_lsb = 0
        ∧ (ilps28qsw_data_get md ⟨regs, [], []⟩).2.1.pressure_hpa
          = (if md.fs = ILPS28QSW_1260hPa then
              ilps28qsw_from_fs1260_to_hPa ((ilps28qsw_data_get md ⟨regs, [], []⟩).2.1.pressure_raw)
            else
              ilps28qsw_from_fs4060_to_hPa ((ilps28qsw_data_get md ⟨regs, [], []⟩).2.1.pressure_raw)))
      ∧ ((ilps28qsw_data_get md ⟨regs, [], []⟩).2.1.pressure_hpa = 0
        ∨ (ilps28qsw_data_get md ⟨regs, [], []⟩).2.1.ah_qvar_lsb = 0) := by
  have hraw := press_raw_eq b0 b1 b2 h0 h1 h2
  simp only [ilps28qsw_data_get, busRead, popStatus, readBytes, List.getD, hint, hr0, hr1, hr2]
  norm_num
  by_cases hb : getBits b0 0 1 = 0
  · rcases hfs with hf | hf <;>
      simp [hb, hf, hpa_of_fs, ILPS28QSW_1260hPa, ILPS28QSW_4060hPa]
  · have hb1 : getBits b0 0 1 = 1 := by
      simp only [getBits] at hb ⊢
      omega
    simp only [hb1]
    norm_num
    rw [hraw]
    intro hne hz
    rw [Int.mul_tdiv_cancel _ (by norm_num)] at hz
    rw [hz] at hne
    simp at hne

/-- C4 witness: a QVAR-tagged sample (bit 0 of the low byte set). -/
theorem C4_interleaved_demux_witness :
    getBits 0x13 0 1 = 1
      ∧ (ilps28qsw_data_get ⟨0, 0, 0, ILPS28QSW_1260hPa, 1⟩
          ⟨fun a => if a = 0x28 then 0x13 else if a = 0x29 then 0x34
            else if a = 0x2A then 0x56 else 0, [], []⟩).2.1.pressure_hpa = 0
      ∧ (ilps28qsw_data_get ⟨0, 0, 0, ILPS28QSW_1260hPa, 1⟩
          ⟨fun a => if a = 0x28 then 0x13 else if a = 0x29 then 0x34
            else if a = 0x2A then 0x56 else 0, [], []⟩).2.1.ah_qvar_lsb
        = Int.tdiv ((ilps28qsw_data_get ⟨0, 0, 0, ILPS28QSW_1260hPa, 1⟩
          ⟨fun a => if a = 0x28 then 0x13 else if a = 0x29 then 0x34
            else if a = 0x2A then 0x56 else 0, [], []⟩).2.1.pressure_raw) 256 := by
  have h := C4_interleaved_demux 0x13 0x34 0x56 (by norm_num) (by norm_num) (by norm_num)
    (fun a => if a = 0x28 then 0x13 else if a = 0x29 then 0x34
      else if a = 0x2A then 0x56 else 0) (by decide) (by decide) (by decide)
    ⟨0, 0, 0, ILPS28QSW_1260hPa, 1⟩ rfl (Or.inl rfl)
  have hb : getBits 0x13 0 1 = 1 := by decide
  exact ⟨hb, (h.1 hb).1, (h.1 hb).2.1⟩

/-- C8: in ilps28qsw_status_get the end_meas and ref_done outputs are the
bitwise complements of the oneshot bit of CTRL_REG2 and the autozero bit
of INTERRUPT_CFG, and as booleans (bit 0) they are the logical negations
of those bits, for every register content. -/
theorem C8_status_bitwise_inversion (regs : Nat → Nat) :
    (ilps28qsw_status_get ⟨regs, [], []⟩).2.1.end_meas
        = bnot8 (getBits (regs ILPS28QSW_CTRL_REG2) 0 1)
      ∧ (ilps28qsw_status_get ⟨regs, [], []⟩).2.1.end_meas % 2
        = 1 - getBits (regs ILPS28QSW_CTRL_REG2) 0 1
      ∧ (ilps28qsw_status_get ⟨regs, [], []⟩).2.1.ref_done
        = bnot8 (getBits (regs ILPS28QSW_INTERRUPT_CFG) 5 1)
      ∧ (ilps28qsw_status_get ⟨regs, [], []⟩).2.1.ref_done % 2
        = 1 - getBits (regs ILPS28QSW_INTERRUPT_CFG) 5 1 := by
  simp only [ilps28qsw_status_get, busRead, popStatus, readBytes, List.getD, bnot8, getBits]
  norm_num
  omega

/-- C6: for every prior register state, ilps28qsw_fifo_mode_set writes the
watermark value into the wtm field of the FIFO watermark register exactly,
and writes stop-on-watermark disabled when the watermark is 0 and enabled
when it is non-zero. -/
theorem C6_watermark_forces_stop (regs : Nat → Nat) (val : ilps28qsw_fifo_md_t)
    (hwm : val.watermark < 128) :
    getBits ((ilps28qsw_fifo_mode_set val ⟨regs, [], []⟩).2.regs ILPS28QSW_FIFO_WTM) 0 7
        = val.watermark
      ∧ getBits ((ilps28qsw_fifo_mode_set val ⟨regs, [], []⟩).2.regs ILPS28QSW_FIFO_CTRL) 3 1
        = (if val.watermark = 0 then PROPERTY_DISABLE else PROPERTY_ENABLE) := by
  by_cases h0 : val.watermark = 0 <;>
    simp [ilps28qsw_fifo_mode_set, busRead, busWrite, popStatus, readBytes, writeBytes,
      List.getD, ILPS28QSW_FIFO_CTRL, ILPS28QSW_FIFO_WTM, PROPERTY_ENABLE, PROPERTY_DISABLE,
      getBits, setBits, h0] <;>
    omega

/-- C6 witness: watermark 50 against a prior state with every bit set
(stop-on-watermark previously enabled) and watermark 0 against the same
prior state. -/
theorem C6_watermark_forces_stop_witness :
    ((50 : Nat) < 128
      ∧ getBits ((ilps28qsw_fifo_mode_set ⟨0, 50⟩ ⟨fun _ => 255, [], []⟩).2.regs
          ILPS28QSW_FIFO_WTM) 0 7 = 50
      ∧ getBits ((ilps28qsw_fifo_mode_set ⟨0, 50⟩ ⟨fun _ => 255, [], []⟩).2.regs
          ILPS28QSW_FIFO_CTRL) 3 1 = (if (50 : Nat) = 0 then PROPERTY_DISABLE else PROPERTY_ENABLE))
    ∧ ((0 : Nat) < 128
      ∧ getBits ((ilps28qsw_fifo_mode_set ⟨0, 0⟩ ⟨fun _ => 255, [], []⟩).2.regs
          ILPS28QSW_FIFO_WTM) 0 7 = 0
      ∧ getBits ((ilps28qsw_fifo_mode_set ⟨0, 0⟩ ⟨fun _ => 255, [], []⟩).2.regs
          ILPS28QSW_FIFO_CTRL) 3 1 = (if (0 : Nat) = 0 then PROPERTY_DISABLE else PROPERTY_ENABLE)) :=
  ⟨⟨by norm_num, C6_watermark_forces_stop (fun _ => 255) ⟨0, 50⟩ (by norm_num)⟩,
   ⟨by norm_num, C6_watermark_forces_stop (fun _ => 255) ⟨0, 0⟩ (by norm_num)⟩⟩

/-- C10: ilps28qsw_fifo_mode_set is a read-modify-write that changes only
the f_mode, trig_modes and stop_on_wtm fields of FIFO_CTRL and the wtm
field of FIFO_WTM; bits 4-7 of FIFO_CTRL (in particular the interleave
enable ah_qvar_p_fifo_en at bit 4), bit 7 of FIFO_WTM and every other
register keep the values that were read, for every prior state. -/
theorem C10_fifo_mode_set_frame (regs : Nat → Nat) (val : ilps28qsw_fifo_md_t) :
    (ilps28qsw_fifo_mode_set val ⟨regs, [], []⟩).2.regs ILPS28QSW_FIFO_CTRL / 16
        = regs ILPS28QSW_FIFO_CTRL / 16
      ∧ getBits ((ilps28qsw_fifo_mode_set val ⟨regs, [], []⟩).2.regs ILPS28QSW_FIFO_CTRL) 4 1
        = getBits (regs ILPS28QSW_FIFO_CTRL) 4 1
      ∧ (ilps28qsw_fifo_mode_set val ⟨regs, [], []⟩).2.regs ILPS28QSW_FIFO_WTM / 128
        = regs ILPS28QSW_FIFO_WTM / 128
      ∧ (∀ a, a ≠ ILPS28QSW_FIFO_CTRL → a ≠ ILPS28QSW_FIFO_WTM →
          (ilps28qsw_fifo_mode_set val ⟨regs, [], []⟩).2.regs a = regs a)
      ∧ getBits ((ilps28qsw_fifo_mode_set val ⟨regs, [], []⟩).2.regs ILPS28QSW_FIFO_CTRL) 0 2
        = getBits val.operation 0 2
      ∧ getBits ((ilps28qsw_fifo_mode_set val ⟨regs, [], []⟩).2.regs ILPS28QSW_FIFO_CTRL) 2 1
        = getBits val.operation 2 1 := by
  refine ⟨?_, ?_, ?_, ?_, ?_, ?_⟩
  · by_cases h0 : val.watermark = 0 <;>
      simp [ilps28qsw_fifo_mode_set, busRead, busWrite, popStatus, readBytes, writeBytes,
        List.getD, ILPS28QSW_FIFO_CTRL, ILPS28QSW_FIFO_WTM, PROPERTY_ENABLE, PROPERTY_DISABLE,
        getBits, setBits, h0] <;>
      omega
  · by_cases h0 : val.watermark = 0 <;>
      simp [ilps28qsw_fifo_mode_set, busRead, busWrite, popStatus, readBytes, writeBytes,
        List.getD, ILPS28QSW_FIFO_CTRL, ILPS28QSW_FIFO_WTM, PROPERTY_ENABLE, PROPERTY_DISABLE,
        getBits, setBits, h0] <;>
      omega
  · by_cases h0 : val.watermark = 0 <;>
      simp [ilps28qsw_fifo_mode_set, busRead, busWrite, popStatus, readBytes, writeBytes,
        List.getD, ILPS28QSW_FIFO_CTRL, ILPS28QSW_FIFO_WTM, PROPERTY_ENABLE, PROPERTY_DISABLE,
        getBits, setBits, h0] <;>
      omega
  · intro a ha1 ha2
    simp only [ILPS28QSW_FIFO_CTRL, ILPS28QSW_FIFO_WTM] at ha1 ha2
    have hno : ¬(20 ≤ a ∧ a - 20 < 2) := by omega
    by_cases h0 : val.watermark = 0 <;>
      simp [ilps28qsw_fifo_mode_set, busRead, busWrite, popStatus, readBytes, writeBytes,
        List.getD, ILPS28QSW_FIFO_CTRL, ILPS28QSW_FIFO_WTM, PROPERTY_ENABLE,
        PROPERTY_DISABLE, h0, hno]
  · by_cases h0 : val.watermark = 0 <;>
      simp [ilps28qsw_fifo_mode_set, busRead, busWrite, popStatus, readBytes, writeBytes,
        List.getD, ILPS28QSW_FIFO_CTRL, ILPS28QSW_FIFO_WTM, PROPERTY_ENABLE, PROPERTY_DISABLE,
        getBits, setBits, h0] <;>
      omega
  · by_cases h0 : val.watermark = 0 <;>
      simp [ilps28qsw_fifo_mode_set, busRead, busWrite, popStatus, readBytes, writeBytes,
        List.getD, ILPS28QSW_FIFO_CTRL, ILPS28QSW_FIFO_WTM, PROPERTY_ENABLE, PROPERTY_DISABLE,
        getBits, setBits, h0] <;>
      omega

/-- C10 witness: prior state with every bit set; the interleave-enable bit
(bit 4 of FIFO_CTRL) and an unrelated register survive the call. -/
theorem C10_fifo_mode_set_frame_witness :
    getBits ((ilps28qsw_fifo_mode_set ⟨3, 0⟩ ⟨fun _ => 255, [], []⟩).2.regs
        ILPS28QSW_FIFO_CTRL) 4 1 = getBits 255 4 1
      ∧ (ilps28qsw_fifo_mode_set ⟨3, 0⟩ ⟨fun _ => 255, [], []⟩).2.regs ILPS28QSW_CTRL_REG3
        = 255 :=
  ⟨(C10_fifo_mode_set_frame (fun _ => 255) ⟨3, 0⟩).2.1,
   (C10_fifo_mode_set_frame (fun _ => 255) ⟨3, 0⟩).2.2.2.1 ILPS28QSW_CTRL_REG3
     (by decide) (by decide)⟩

/-! ### Decode-switch default lemmas (one per source switch). -/

theorem decode_odr_default (n : Nat) (h : 8 < n) : decode_odr n = ILPS28QSW_ONE_SHOT := by
  simp only [decode_odr, ILPS28QSW_ONE_SHOT, ILPS28QSW_1Hz, ILPS28QSW_4Hz, ILPS28QSW_10Hz,
    ILPS28QSW_25Hz, ILPS28QSW_50Hz, ILPS28QSW_75Hz, ILPS28QSW_100Hz, ILPS28QSW_200Hz]
  split_ifs <;> omega

theorem decode_avg_id (n : Nat) (h : n < 8) : decode_avg n = n := by
  simp only [decode_avg, ILPS28QSW_4_AVG, ILPS28QSW_8_AVG, ILPS28QSW_16_AVG, ILPS28QSW_32_AVG,
    ILPS28QSW_64_AVG, ILPS28QSW_128_AVG, ILPS28QSW_256_AVG, ILPS28QSW_512_AVG]
  split_ifs <;> omega

theorem decode_fs_mem (n : Nat) :
    decode_fs n = ILPS28QSW_1260hPa ∨ decode_fs n = ILPS28QSW_4060hPa := by
  simp only [decode_fs]
  split_ifs <;> simp

theorem decode_lpf_default (n : Nat) (h1 : n ≠ ILPS28QSW_LPF_DISABLE)
    (h2 : n ≠ ILPS28QSW_LPF_ODR_DIV_4) (h3 : n ≠ ILPS28QSW_LPF_ODR_DIV_9) :
    decode_lpf n = ILPS28QSW_LPF_DISABLE := by
  simp only [decode_lpf]
  split_ifs <;> simp_all

theorem decode_operation_default (n : Nat) (h1 : n ≠ ILPS28QSW_BYPASS)
    (h2 : n ≠ ILPS28QSW_FIFO) (h3 : n ≠ ILPS28QSW_STREAM)
    (h4 : n ≠ ILPS28QSW_STREAM_TO_FIFO) (h5 : n ≠ ILPS28QSW_BYPASS_TO_STREAM)
    (h6 : n ≠ ILPS28QSW_BYPASS_TO_FIFO) : decode_operation n = ILPS28QSW_BYPASS := by
  simp only [decode_operation]
  split_ifs <;> simp_all

theorem decode_apply_ref_default (n : Nat) (h1 : n ≠ ILPS28QSW_OUT_AND_INTERRUPT)
    (h2 : n ≠ ILPS28QSW_ONLY_INTERRUPT) : decode_apply_ref n = ILPS28QSW_RST_REFS := by
  simp only [decode_apply_ref]
  split_ifs <;> simp_all

/-- C7: the decode path of the getters is total with explicit defaults:
for every register byte, a bit pattern outside the documented
enumerations decodes to the documented lowest setting - rate one-shot,
low-pass filter disabled, FIFO bypass, reset-references - while the
full-scale and averaging fields can never fall outside their enumerations
(1 and 3 bits wide, fully covered). -/
theorem C7_decode_totality_defaults (regs : Nat → Nat) :
    (8 < getBits (regs ILPS28QSW_CTRL_REG1) 3 4 →
        (ilps28qsw_mode_get ⟨0, 0, 0, 0, 0⟩ ⟨regs, [], []⟩).2.1.odr = ILPS28QSW_ONE_SHOT)
      ∧ (ilps28qsw_mode_get ⟨0, 0, 0, 0, 0⟩ ⟨regs, [], []⟩).2.1.avg
          = getBits (regs ILPS28QSW_CTRL_REG1) 0 3
      ∧ ((ilps28qsw_mode_get ⟨0, 0, 0, 0, 0⟩ ⟨regs, [], []⟩).2.1.fs = ILPS28QSW_1260hPa
          ∨ (ilps28qsw_mode_get ⟨0, 0, 0, 0, 0⟩ ⟨regs, [], []⟩).2.1.fs = ILPS28QSW_4060hPa)
      ∧ (getBits (regs (ILPS28QSW_CTRL_REG1 + 1)) 5 1 * 4 + getBits (regs (ILPS28QSW_CTRL_REG1 + 1)) 4 1
            ≠ ILPS28QSW_LPF_DISABLE →
          getBits (regs (ILPS28QSW_CTRL_REG1 + 1)) 5 1 * 4 + getBits (regs (ILPS28QSW_CTRL_REG1 + 1)) 4 1
            ≠ ILPS28QSW_LPF_ODR_DIV_4 →
          getBits (regs (ILPS28QSW_CTRL_REG1 + 1)) 5 1 * 4 + getBits (regs (ILPS28QSW_CTRL_REG1 + 1)) 4 1
            ≠ ILPS28QSW_LPF_ODR_DIV_9 →
          (ilps28qsw_mode_get ⟨0, 0, 0, 0, 0⟩ ⟨regs, [], []⟩).2.1.lpf = ILPS28QSW_LPF_DISABLE)
      ∧ (getBits (regs ILPS28QSW_FIFO_CTRL) 2 1 * 4 + getBits (regs ILPS28QSW_FIFO_CTRL) 0 2
            ≠ ILPS28QSW_BYPASS →
          getBits (regs ILPS28QSW_FIFO_CTRL) 2 1 * 4 + getBits (regs ILPS28QSW_FIFO_CTRL) 0 2
            ≠ ILPS28QSW_FIFO →
          getBits (regs ILPS28QSW_FIFO_CTRL) 2 1 * 4 + getBits (regs ILPS28QSW_FIFO_CTRL) 0 2
            ≠ ILPS28QSW_STREAM →
          getBits (regs ILPS28QSW_FIFO_CTRL) 2 1 * 4 + getBits (regs ILPS28QSW_FIFO_CTRL) 0 2
            ≠ ILPS28QSW_STREAM_TO_FIFO →
          getBits (regs ILPS28QSW_FIFO_CTRL) 2 1 * 4 + getBits (regs ILPS28QSW_FIFO_CTRL) 0 2
            ≠ ILPS28QSW_BYPASS_TO_STREAM →
          getBits (regs ILPS28QSW_FIFO_CTRL) 2 1 * 4 + getBits (regs ILPS28QSW_FIFO_CTRL) 0 2
            ≠ ILPS28QSW_BYPASS_TO_FIFO →
          (ilps28qsw_fifo_mode_get ⟨regs, [], []⟩).2.1.operation = ILPS28QSW_BYPASS)
      ∧ ((ilps28qsw_fifo_mode_get ⟨regs, [], []⟩).2.1.watermark
          = getBits (regs ILPS28QSW_FIFO_WTM) 0 7)
      ∧ (getBits (regs ILPS28QSW_INTERRUPT_CFG) 4 1 * 2 + getBits (regs ILPS28QSW_INTERRUPT_CFG) 7 1
            ≠ ILPS28QSW_OUT_AND_INTERRUPT →
          getBits (regs ILPS28QSW_INTERRUPT_CFG) 4 1 * 2 + getBits (regs ILPS28QSW_INTERRUPT_CFG) 7 1
            ≠ ILPS28QSW_ONLY_INTERRUPT →
          (ilps28qsw_reference_mode_get ⟨regs, [], []⟩).2.1.apply_ref = ILPS28QSW_RST_REFS) := by
  have havg : getBits (regs ILPS28QSW_CTRL_REG1) 0 3 < 8 := by
    simp only [getBits]
    omega
  simp only [ilps28qsw_mode_get, ilps28qsw_fifo_mode_get, ilps28qsw_reference_mode_get,
    busRead, popStatus, readBytes, List.getD]
  norm_num only
  exact ⟨fun h => decode_odr_default _ h,
    decode_avg_id _ havg,
    decode_fs_mem _,
    fun h1 h2 h3 => decode_lpf_default _ h1 h2 h3,
    fun h1 h2 h3 h4 h5 h6 => decode_operation_default _ h1 h2 h3 h4 h5 h6,
    rfl,
    fun h1 h2 => decode_apply_ref_default _ h1 h2⟩


/-- C7 witness: a register image whose odr field (15), low-pass selector
combination (4), FIFO operation combination (3) and apply-reference
combination (3) are all outside the documented enumerations. -/
theorem C7_decode_totality_defaults_witness :
    (ilps28qsw_mode_get ⟨0, 0, 0, 0, 0⟩
        ⟨fun a => if a = 0x10 then 0xFF else if a = 0x11 then 0x20
          else if a = 0x14 then 3 else if a = 0x0B then 0x90 else 0, [], []⟩).2.1.odr
      = ILPS28QSW_ONE_SHOT
    ∧ (ilps28qsw_mode_get ⟨0, 0, 0, 0, 0⟩
        ⟨fun a => if a = 0x10 then 0xFF else if a = 0x11 then 0x20
          else if a = 0x14 then 3 else if a = 0x0B then 0x90 else 0, [], []⟩).2.1.lpf
      = ILPS28QSW_LPF_DISABLE
    ∧ (ilps28qsw_fifo_mode_get
        ⟨fun a => if a = 0x10 then 0xFF else if a = 0x11 then 0x20
          else if a = 0x14 then 3 else if a = 0x0B then 0x90 else 0, [], []⟩).2.1.operation
      = ILPS28QSW_BYPASS
    ∧ (ilps28qsw_reference_mode_get
        ⟨fun a => if a = 0x10 then 0xFF else if a = 0x11 then 0x20
          else if a = 0x14 then 3 else if a = 0x0B then 0x90 else 0, [], []⟩).2.1.apply_ref
      = ILPS28QSW_RST_REFS := by
  have h := C7_decode_totality_defaults
    (fun a => if a = 0x10 then 0xFF else if a = 0x11 then 0x20
      else if a = 0x14 then 3 else if a = 0x0B then 0x90 else 0)
  exact ⟨h.1 (by decide), h.2.2.2.1 (by decide) (by decide) (by decide),
    h.2.2.2.2.1 (by decide) (by decide) (by decide) (by decide) (by decide) (by decide),
    h.2.2.2.2.2.2 (by decide) (by decide)⟩

/-! ### FIFO batch read loop lemmas. -/

/-- One unfolding step of the FIFO read loop. -/
theorem fifo_data_go_succ (md : ilps28qsw_md_t) (n : Nat) (regs : Nat → Nat)
    (x : Int) (rest : List Int) (tr : List BusOp)
    (acc : List ilps28qsw_fifo_data_t) (ret : Int) :
    fifo_data_go md (n + 1) ⟨regs, x :: rest, tr⟩ acc ret
      = fifo_data_go md n
          ⟨regs, rest, tr ++ [BusOp.rd ILPS28QSW_FIFO_DATA_OUT_PRESS_XL 3]⟩
          (fifo_sample_decode md (regs ILPS28QSW_FIFO_DATA_OUT_PRESS_XL)
            (regs (ILPS28QSW_FIFO_DATA_OUT_PRESS_XL + 1))
            (regs (ILPS28QSW_FIFO_DATA_OUT_PRESS_XL + 1 + 1)) :: acc)
          (wrap32 x) := rfl

theorem fifo_go_status (md : ilps28qsw_md_t) :
    ∀ (n : Nat) (regs : Nat → Nat) (sc : List Int) (tr : List BusOp)
      (acc : List ilps28qsw_fifo_data_t) (ret : Int),
      1 ≤ n → sc.length = n →
      (fifo_data_go md n ⟨regs, sc, tr⟩ acc ret).1 = wrap32 (sc.getD (n - 1) 0) := by
  intro n
  induction n with
  | zero => intro regs sc tr acc ret h1 hlen; omega
  | succ n ih =>
    intro regs sc tr acc ret h1 hlen
    cases sc with
    | nil => simp at hlen
    | cons x rest =>
      rw [fifo_data_go_succ]
      rcases Nat.eq_zero_or_pos n with hn | hn
      · subst hn
        simp [fifo_data_go, List.getD]
      · have hrest : rest.length = n := by simpa using hlen
        rw [ih regs rest (tr ++ [BusOp.rd ILPS28QSW_FIFO_DATA_OUT_PRESS_XL 3])
          (fifo_sample_decode md (regs ILPS28QSW_FIFO_DATA_OUT_PRESS_XL)
            (regs (ILPS28QSW_FIFO_DATA_OUT_PRESS_XL + 1))
            (regs (ILPS28QSW_FIFO_DATA_OUT_PRESS_XL + 1 + 1)) :: acc)
          (wrap32 x) hn hrest]
        obtain ⟨m, rfl⟩ : ∃ m, n = m + 1 := ⟨n - 1, by omega⟩
        simp [List.getD]

/-- C9: the int32 status of ilps28qsw_fifo_data_get equals exactly the
transport status of the last (samp-th) FIFO read - non-zero statuses of
earlier reads are discarded - and samp = 0 performs no bus access and
returns 0. -/
theorem C9_fifo_data_status_is_last_read (samp : Nat) (ss : List Int) (regs : Nat → Nat) (md : ilps28qsw_md_t) :
    (ilps28qsw_fifo_data_get 0 md ⟨regs, ss, []⟩ = (0, [], ⟨regs, ss, []⟩))
      ∧ (1 ≤ samp → ss.length = samp →
          (∀ i, i < ss.length → -(2 ^ 31) ≤ ss.getD i 0 ∧ ss.getD i 0 < 2 ^ 31) →
          (ilps28qsw_fifo_data_get samp md ⟨regs, ss, []⟩).1 = ss.getD (samp - 1) 0) := by
  constructor
  · rfl
  · intro h1 hlen hrange
    rw [ilps28qsw_fifo_data_get, fifo_go_status md samp regs ss [] [] 0 h1 hlen]
    have hr := hrange (samp - 1) (by omega)
    simp only [wrap32]
    omega


/-- C9 witness: three scripted reads with statuses 0, 9, 7; the returned
status is 7, the status of the last read; and samp = 0 performs no bus
access and returns 0. -/
theorem C9_fifo_data_status_is_last_read_witness :
    (ilps28qsw_fifo_data_get 0 ⟨0, 0, 0, 0, 0⟩ ⟨fun _ => 0, [0, 9, 7], []⟩
        = (0, [], ⟨fun _ => 0, [0, 9, 7], []⟩))
      ∧ (ilps28qsw_fifo_data_get 3 ⟨0, 0, 0, 0, 0⟩ ⟨fun _ => 0, [0, 9, 7], []⟩).1 = 7 :=
  ⟨(C9_fifo_data_status_is_last_read 3 [0, 9, 7] (fun _ => 0) ⟨0, 0, 0, 0, 0⟩).1,
   (C9_fifo_data_status_is_last_read 3 [0, 9, 7] (fun _ => 0) ⟨0, 0, 0, 0, 0⟩).2
     (by norm_num) (by norm_num)
     (by
       intro i hi
       simp only [List.length_cons, List.length_nil] at hi
       interval_cases i <;> norm_num [List.getD])⟩

set_option maxHeartbeats 1000000 in
/-- C3 counterexample: statuses are combined by arithmetic int32 sum, so
two non-zero step statuses can cancel.  Against a device with odr and
QVAR-enable set (seven transport calls), the scripted statuses are
0, 1, -1, then 0 for the remaining calls: at least one step status is
non-zero, yet ilps28qsw_mode_set returns 0.  This refutes the claim that
any non-zero status contribution makes the returned sum non-zero. -/
theorem C3_status_cancellation_counterexample :
    (1 : Int) ≠ 0 ∧ (-1 : Int) ≠ 0
      ∧ (ilps28qsw_mode_set ⟨0, 0, 0, 0, 0⟩ ⟨fun _ => 255, [0, 1, -1], []⟩).1 = 0 := by
  refine ⟨by norm_num, by norm_num, ?_⟩
  simp only [ilps28qsw_mode_set, busRead, busWrite, popStatus, readBytes, writeBytes,
    List.getD, i32add, wrap32, getBits, setBits, ILPS28QSW_CTRL_REG1, ILPS28QSW_CTRL_REG3,
    ILPS28QSW_FIFO_CTRL]
  norm_num

set_option maxHeartbeats 1000000 in
/-- C3 (amended): when exactly one step status is non-zero the int32 sum
equals that status and is therefore non-zero.  Against a powered-down
device with QVAR off, ilps28qsw_mode_set performs five transport calls
(read, interleave write, FIFO read, FIFO write, final 3-register write);
the script makes the fourth call - the second of the three burst writes -
fail with status s while every other call returns 0, and the aggregate
return is exactly s. -/
theorem C3_single_failure_nonzero (s : Int) (hnz : s ≠ 0)
    (hlo : -(2 ^ 31) ≤ s) (hhi : s < 2 ^ 31) :
    (ilps28qsw_mode_set ⟨0, 0, 0, 0, 0⟩ ⟨fun _ => 0, [0, 0, 0, s, 0], []⟩).1 = s
      ∧ (ilps28qsw_mode_set ⟨0, 0, 0, 0, 0⟩ ⟨fun _ => 0, [0, 0, 0, s, 0], []⟩).1 ≠ 0 := by
  have heq : (ilps28qsw_mode_set ⟨0, 0, 0, 0, 0⟩ ⟨fun _ => 0, [0, 0, 0, s, 0], []⟩).1 = s := by
    simp only [ilps28qsw_mode_set, busRead, busWrite, popStatus, readBytes, writeBytes,
      List.getD, i32add, wrap32, getBits, setBits, ILPS28QSW_CTRL_REG1, ILPS28QSW_CTRL_REG3,
      ILPS28QSW_FIFO_CTRL]
    norm_num
    omega
  exact ⟨heq, by rw [heq]; exact hnz⟩

set_option maxHeartbeats 1000000 in
/-- C3 witness: the second of the three burst writes fails with status 9;
the aggregate return is 9. -/
theorem C3_single_failure_nonzero_witness :
    (9 : Int) ≠ 0
      ∧ (ilps28qsw_mode_set ⟨0, 0, 0, 0, 0⟩ ⟨fun _ => 0, [0, 0, 0, 9, 0], []⟩).1 = 9
      ∧ (ilps28qsw_mode_set ⟨0, 0, 0, 0, 0⟩ ⟨fun _ => 0, [0, 0, 0, 9, 0], []⟩).1 ≠ 0 :=
  ⟨by norm_num,
   (C3_single_failure_nonzero 9 (by norm_num) (by norm_num) (by norm_num)).1,
   (C3_single_failure_nonzero 9 (by norm_num) (by norm_num) (by norm_num)).2⟩

/-- Write-operation test used to count the bus writes of a trace. -/
def isWrite : BusOp → Bool
  | BusOp.wr _ _ => true
  | BusOp.rd _ _ => false

/-- A transport call that writes a CTRL_REG1 byte whose odr field carries
the given saved rate value: a rate-restoration write. -/
def restoresRate (saved : Nat) : BusOp → Bool
  | BusOp.wr a bs => a == ILPS28QSW_CTRL_REG1 && getBits (bs.getD 0 0) 3 4 == saved
  | BusOp.rd _ _ => false

/-- A standalone CTRL_REG3 write whose ah_qvar_en bit carries the given
saved QVAR-enable value: a QVAR-restoration write. -/
def restoresQvar (saved : Nat) : BusOp → Bool
  | BusOp.wr a bs => a == ILPS28QSW_CTRL_REG3 && getBits (bs.getD 0 0) 7 1 == saved
  | BusOp.rd _ _ => false

set_option maxHeartbeats 1000000 in
/-- C1 counterexample: device initially running (odr = 3) with QVAR
enabled, caller requests odr 5 with interleaved mode changed from 0 to 1.
ilps28qsw_mode_set issues exactly 7 transport calls with only 5 writes:
power-down, QVAR-disable, interleave write to CTRL_REG3, FIFO_CTRL write,
and the final combined 3-register write.  No transport call restores the
saved rate (no CTRL_REG1 write carries odr = 3), and no standalone
CTRL_REG3 write restores the saved QVAR-enable: the claimed separate
restoration writes between the interleave writes and the final combined
write do not exist. -/
theorem C1_no_restoration_writes_counterexample :
    (ilps28qsw_mode_set ⟨5, 1, 0, 0, 1⟩
        ⟨fun a => if a = 0x10 then 0x18 else if a = 0x12 then 0x80 else 0, [], []⟩).2.trace
      = [BusOp.rd 0x10 3, BusOp.wr 0x10 [0x00], BusOp.wr 0x12 [0x00],
         BusOp.wr 0x12 [0x20], BusOp.rd 0x14 1, BusOp.wr 0x14 [0x10],
         BusOp.wr 0x10 [0x29, 0x00, 0xA0]]
      ∧ ((ilps28qsw_mode_set ⟨5, 1, 0, 0, 1⟩
          ⟨fun a => if a = 0x10 then 0x18 else if a = 0x12 then 0x80 else 0,
            [], []⟩).2.trace.filter isWrite).length = 5
      ∧ (ilps28qsw_mode_set ⟨5, 1, 0, 0, 1⟩
          ⟨fun a => if a = 0x10 then 0x18 else if a = 0x12 then 0x80 else 0,
            [], []⟩).2.trace.all (fun op => !restoresRate 3 op)
      ∧ (ilps28qsw_mode_set ⟨5, 1, 0, 0, 1⟩
          ⟨fun a => if a = 0x10 then 0x18 else if a = 0x12 then 0x80 else 0,
            [], []⟩).2.trace.all (fun op => !restoresQvar 1 op) := by
  have htr : (ilps28qsw_mode_set ⟨5, 1, 0, 0, 1⟩
      ⟨fun a => if a = 0x10 then 0x18 else if a = 0x12 then 0x80 else 0, [], []⟩).2.trace
      = [BusOp.rd 0x10 3, BusOp.wr 0x10 [0x00], BusOp.wr 0x12 [0x00],
         BusOp.wr 0x12 [0x20], BusOp.rd 0x14 1, BusOp.wr 0x14 [0x10],
         BusOp.wr 0x10 [0x29, 0x00, 0xA0]] := by
    simp only [ilps28qsw_mode_set, busRead, busWrite, popStatus, readBytes, writeBytes,
      List.getD, i32add, wrap32, getBits, setBits, ILPS28QSW_CTRL_REG1, ILPS28QSW_CTRL_REG3,
      ILPS28QSW_FIFO_CTRL]
    norm_num
    simp [writeBytes]
  refine ⟨htr, ?_, ?_, ?_⟩ <;> rw [htr] <;> decide

set_option maxHeartbeats 1000000 in
/-- C1 (amended): when the initially read rate is non-zero and the
QVAR-enable bit is set and the interleaved mode is being changed, the
transport call sequence is exactly: the initial 3-register read, a
power-down write, a QVAR-disable write, the interleave write to the main
control register, a read and then a write of the FIFO control register
carrying the interleave flag, and one final combined 3-register write.
That final write carries the restored QVAR-enable bit and the caller
requested rate; the saved rate is not restored by any separate write (it
is superseded by the caller requested rate inside the same final write). -/
theorem C1_mode_set_sequence (c1 c2 c3 fc : Nat) (val : ilps28qsw_md_t)
    (h1 : getBits c1 3 4 ≠ 0) (h2 : getBits c3 7 1 ≠ 0)
    (h3 : getBits c3 5 1 ≠ val.interleaved_mode) :
    (ilps28qsw_mode_set val
        ⟨fun a => if a = 0x10 then c1 else if a = 0x11 then c2 else if a = 0x12 then c3
          else if a = 0x14 then fc else 0, [], []⟩).2.trace
        = [BusOp.rd 0x10 3,
           BusOp.wr 0x10 [setBits c1 3 4 0],
           BusOp.wr 0x12 [setBits c3 7 1 0],
           BusOp.wr 0x12 [setBits (setBits c3 7 1 0) 5 1 val.interleaved_mode],
           BusOp.rd 0x14 1,
           BusOp.wr 0x14 [setBits fc 4 1 val.interleaved_mode],
           BusOp.wr 0x10
             [setBits (setBits (setBits (setBits c1 3 4 0) 3 4 (getBits c1 3 4)) 3 4 val.odr)
                0 3 val.avg,
              setBits (setBits (setBits c2 4 1 (getBits val.lpf 0 1)) 5 1 (getBits val.lpf 1 1))
                6 1 val.fs,
              setBits (setBits (setBits c3 7 1 0) 5 1 val.interleaved_mode) 7 1 (getBits c3 7 1)]]
      ∧ getBits (setBits (setBits (setBits c3 7 1 0) 5 1 val.interleaved_mode) 7 1
          (getBits c3 7 1)) 7 1 = getBits c3 7 1
      ∧ getBits (setBits (setBits (setBits (setBits c1 3 4 0) 3 4 (getBits c1 3 4)) 3 4 val.odr)
          0 3 val.avg) 3 4 = val.odr % 16 := by
  refine ⟨?_, ?_, ?_⟩
  · simp only [ilps28qsw_mode_set, busRead, busWrite, popStatus, readBytes, writeBytes,
      List.getD, i32add, wrap32, ILPS28QSW_CTRL_REG1, ILPS28QSW_CTRL_REG3, ILPS28QSW_FIFO_CTRL]
    norm_num [h1, h2]
    simp [writeBytes]
  · simp only [getBits, setBits]
    omega
  · simp only [getBits, setBits]
    omega

set_option maxHeartbeats 1000000 in
/-- C1 witness: the amended sequence at the concrete counterexample input
(initial odr 3, QVAR enabled, interleave changing to 1, requested odr 5). -/
theorem C1_mode_set_sequence_witness :
    getBits 0x18 3 4 ≠ 0
      ∧ getBits 0x80 7 1 ≠ 0
      ∧ getBits 0x80 5 1 ≠ (ilps28qsw_md_t.mk 5 1 0 0 1).interleaved_mode
      ∧ (ilps28qsw_mode_set ⟨5, 1, 0, 0, 1⟩
          ⟨fun a => if a = 0x10 then 0x18 else if a = 0x11 then 0 else if a = 0x12 then 0x80
            else if a = 0x14 then 0 else 0, [], []⟩).2.trace
        = [BusOp.rd 0x10 3, BusOp.wr 0x10 [0x00], BusOp.wr 0x12 [0x00],
           BusOp.wr 0x12 [0x20], BusOp.rd 0x14 1, BusOp.wr 0x14 [0x10],
           BusOp.wr 0x10 [0x29, 0x00, 0xA0]] :=
  ⟨by decide, by decide, by decide,
   ((C1_mode_set_sequence 0x18 0 0x80 0 ⟨5, 1, 0, 0, 1⟩
      (by decide) (by decide) (by decide)).1).trans (by decide)⟩

/-! ### Round-trip results for the four setter/getter pairs (claim C2).
The FIFO, threshold and reference pairs round-trip on their documented
domains; for the operating-mode pair every field round-trips except the
low-pass selector DIV 9: the set side stores bit 1 of the selector into
lfpf_cfg (source line 494) while the get side rebuilds the selector as
lfpf_cfg * 4 + en_lpfp (source line 608), an internally inconsistent
encode/decode pair. -/

theorem decode_odr_id (n : Nat) (h : n ≤ 8) : decode_odr n = n := by
  simp only [decode_odr, ILPS28QSW_ONE_SHOT, ILPS28QSW_1Hz, ILPS28QSW_4Hz, ILPS28QSW_10Hz,
    ILPS28QSW_25Hz, ILPS28QSW_50Hz, ILPS28QSW_75Hz, ILPS28QSW_100Hz, ILPS28QSW_200Hz]
  split_ifs <;> omega

theorem decode_fs_id (n : Nat) (h : n < 2) : decode_fs n = n := by
  simp only [decode_fs, ILPS28QSW_1260hPa, ILPS28QSW_4060hPa]
  split_ifs <;> omega

theorem decode_lpf_id01 (n : Nat) (h : n < 2) : decode_lpf n = n := by
  simp only [decode_lpf, ILPS28QSW_LPF_DISABLE, ILPS28QSW_LPF_ODR_DIV_4,
    ILPS28QSW_LPF_ODR_DIV_9]
  split_ifs <;> omega

/-- The FIFO mode setter/getter pair round-trips on the documented domain
(six operation modes, watermark 0-127). -/
theorem fifo_mode_roundtrip (val : ilps28qsw_fifo_md_t)
    (hop : val.operation = ILPS28QSW_BYPASS ∨ val.operation = ILPS28QSW_FIFO
      ∨ val.operation = ILPS28QSW_STREAM ∨ val.operation = ILPS28QSW_STREAM_TO_FIFO
      ∨ val.operation = ILPS28QSW_BYPASS_TO_STREAM ∨ val.operation = ILPS28QSW_BYPASS_TO_FIFO)
    (hwm : val.watermark < 128) :
    (ilps28qsw_fifo_mode_get (ilps28qsw_fifo_mode_set val ⟨fun _ => 0, [], []⟩).2).2.1
      = val := by
  obtain ⟨op, wm⟩ := val
  simp only [ilps28qsw_fifo_md_t.mk.injEq] at hop ⊢
  simp only at hop hwm
  rcases hop with h | h | h | h | h | h <;> subst h <;>
    by_cases h0 : wm = 0 <;>
    simp [ilps28qsw_fifo_mode_set, ilps28qsw_fifo_mode_get, busRead, busWrite, popStatus,
      readBytes, writeBytes, List.getD, getBits, setBits, decode_operation,
      ILPS28QSW_FIFO_CTRL, ILPS28QSW_FIFO_WTM, PROPERTY_ENABLE, PROPERTY_DISABLE,
      ILPS28QSW_BYPASS, ILPS28QSW_FIFO, ILPS28QSW_STREAM, ILPS28QSW_STREAM_TO_FIFO,
      ILPS28QSW_BYPASS_TO_STREAM, ILPS28QSW_BYPASS_TO_FIFO, h0] <;>
    omega

/-- The threshold-interrupt setter/getter pair round-trips for every
16-bit threshold and every pair of enable flags. -/
theorem int_on_threshold_roundtrip (val : ilps28qsw_int_th_md_t)
    (hov : val.over_th < 2) (hun : val.under_th < 2) (hth : val.threshold < 65536) :
    (ilps28qsw_int_on_threshold_mode_get
        (ilps28qsw_int_on_threshold_mode_set val ⟨fun _ => 0, [], []⟩).2).2.1 = val := by
  obtain ⟨ov, un, th⟩ := val
  simp only at hov hun hth
  simp [ilps28qsw_int_on_threshold_mode_set, ilps28qsw_int_on_threshold_mode_get,
    busRead, busWrite, popStatus, readBytes, writeBytes, List.getD, getBits, setBits,
    ILPS28QSW_INTERRUPT_CFG, ilps28qsw_int_th_md_t.mk.injEq]
  refine ⟨?_, ?_, ?_⟩ <;> omega

/-- The reference-mode setter/getter pair round-trips on the documented
domain (three apply-reference states, boolean get_ref). -/
theorem reference_mode_roundtrip (val : ilps28qsw_ref_md_t)
    (hg : val.get_ref < 2)
    (ha : val.apply_ref = ILPS28QSW_OUT_AND_INTERRUPT
      ∨ val.apply_ref = ILPS28QSW_ONLY_INTERRUPT ∨ val.apply_ref = ILPS28QSW_RST_REFS) :
    (ilps28qsw_reference_mode_get
        (ilps28qsw_reference_mode_set val ⟨fun _ => 0, [], []⟩).2).2.1
      = val := by
  obtain ⟨g, ar⟩ := val
  simp only at hg ha
  interval_cases g <;> rcases ha with h | h | h <;> subst h <;>
    simp [ilps28qsw_reference_mode_set, ilps28qsw_reference_mode_get, busRead, busWrite,
      popStatus, readBytes, writeBytes, List.getD, getBits, setBits, decode_apply_ref,
      ILPS28QSW_INTERRUPT_CFG, ILPS28QSW_OUT_AND_INTERRUPT, ILPS28QSW_ONLY_INTERRUPT,
      ILPS28QSW_RST_REFS, ilps28qsw_ref_md_t.mk.injEq] <;>
    omega

set_option maxHeartbeats 1000000 in
/-- The operating-mode setter/getter pair round-trips in every field for
every documented rate, averaging, full-scale and interleave value, as
long as the low-pass selector is DISABLE or DIV 4. -/
theorem mode_roundtrip_except_div9 (val : ilps28qsw_md_t)
    (hodr : val.odr ≤ 8) (havg : val.avg < 8) (hfs : val.fs < 2)
    (him : val.interleaved_mode < 2) (hlpf : val.lpf < 2) :
    (ilps28qsw_mode_get ⟨0, 0, 0, 0, 0⟩
        (ilps28qsw_mode_set val ⟨fun _ => 0, [], []⟩).2).2.1.odr = val.odr
      ∧ (ilps28qsw_mode_get ⟨0, 0, 0, 0, 0⟩
          (ilps28qsw_mode_set val ⟨fun _ => 0, [], []⟩).2).2.1.avg = val.avg
      ∧ (ilps28qsw_mode_get ⟨0, 0, 0, 0, 0⟩
          (ilps28qsw_mode_set val ⟨fun _ => 0, [], []⟩).2).2.1.lpf = val.lpf
      ∧ (ilps28qsw_mode_get ⟨0, 0, 0, 0, 0⟩
          (ilps28qsw_mode_set val ⟨fun _ => 0, [], []⟩).2).2.1.fs = val.fs
      ∧ (ilps28qsw_mode_get ⟨0, 0, 0, 0, 0⟩
          (ilps28qsw_mode_set val ⟨fun _ => 0, [], []⟩).2).2.1.interleaved_mode
        = val.interleaved_mode := by
  obtain ⟨odr, avg, lpf, fs, im⟩ := val
  simp only at hodr havg hfs him hlpf
  have sodr : ∀ m, m = odr → decode_odr m = odr := by
    rintro m rfl
    exact decode_odr_id _ hodr
  have savg : ∀ m, m = avg → decode_avg m = avg := by
    rintro m rfl
    exact decode_avg_id _ havg
  have sfs : ∀ m, m = fs → decode_fs m = fs := by
    rintro m rfl
    exact decode_fs_id _ hfs
  have slpf : ∀ m, m = lpf → decode_lpf m = lpf := by
    rintro m rfl
    exact decode_lpf_id01 _ hlpf
  simp only [ilps28qsw_mode_set, ilps28qsw_mode_get, busRead, busWrite, popStatus,
    readBytes, writeBytes, List.getD, i32add, wrap32, getBits, setBits,
    ILPS28QSW_CTRL_REG1, ILPS28QSW_CTRL_REG3, ILPS28QSW_FIFO_CTRL]
  norm_num
  simp only [writeBytes, List.getD, List.length_cons, List.length_nil]
  norm_num
  refine ⟨sodr _ (by omega), savg _ (by omega), slpf _ (by omega), sfs _ (by omega), by omega⟩

set_option maxHeartbeats 1000000 in
/-- C2: the round-trip get(set(x)) = x fails for the low-pass selector
DIV 9: writing the operating mode with lpf = ILPS28QSW_LPF_ODR_DIV_9 to a
device that stores the written bytes and reading it back yields
lpf = ILPS28QSW_LPF_ODR_DIV_4 (every other field round-trips).  The set
side stores bit 1 of the selector into lfpf_cfg while the get side
rebuilds the selector from lfpf_cfg * 4 + en_lpfp, so the DIV 9 code
(value 5, bit 2 set) can never be reproduced by the getter after the
setter ran. -/
theorem C2_lpf_roundtrip_failure :
    (ilps28qsw_mode_get ⟨0, 0, 0, 0, 0⟩
        (ilps28qsw_mode_set ⟨ILPS28QSW_1Hz, ILPS28QSW_4_AVG, ILPS28QSW_LPF_ODR_DIV_9,
            ILPS28QSW_1260hPa, 0⟩ ⟨fun _ => 0, [], []⟩).2).2.1
        = ⟨ILPS28QSW_1Hz, ILPS28QSW_4_AVG, ILPS28QSW_LPF_ODR_DIV_4, ILPS28QSW_1260hPa, 0⟩
      ∧ ILPS28QSW_LPF_ODR_DIV_4 ≠ ILPS28QSW_LPF_ODR_DIV_9 := by
  constructor
  · simp only [ilps28qsw_mode_set, ilps28qsw_mode_get, busRead, busWrite, popStatus, readBytes,
      writeBytes, List.getD, i32add, wrap32, getBits, setBits, decode_fs, decode_odr, decode_avg,
      decode_lpf, ILPS28QSW_CTRL_REG1, ILPS28QSW_CTRL_REG3, ILPS28QSW_FIFO_CTRL,
      ILPS28QSW_1Hz, ILPS28QSW_4_AVG, ILPS28QSW_LPF_ODR_DIV_9, ILPS28QSW_LPF_ODR_DIV_4,
      ILPS28QSW_LPF_DISABLE, ILPS28QSW_1260hPa, ILPS28QSW_4060hPa, ILPS28QSW_ONE_SHOT]
    norm_num
    simp [writeBytes]
  · decide

end Ilps28qsw
